import Mathlib

/-!
Shallow embedding of the transport-dashboard pipeline (`src/app.py`):
column renaming and normalization (lines 32-44), the sidebar date/route
filters (lines 48-58), and the aggregate views (operational summary,
trend by date, cost analysis, route performance, delivery performance,
lines 63-185).

Conventions of the embedding:
* A table is a presence flag per recognized column (`Cols`) together with
  a list of rows; `pandas` raises a `KeyError` when an absent column is
  indexed with `df[c]`, which is modelled by `Except String` results.
* Dates are day numbers (`Nat`); a date cell holds the day-first parse
  result of `pd.to_datetime(_, errors := coerce)`: `none` is `NaT`
  (unparseable or missing).
* Money and counts are exact rationals (`ℚ`); a raw cost cell is
  `Option ℚ`, `none` standing for a non-numeric or missing value, which
  `pd.to_numeric(_, errors := coerce).fillna(0)` turns into 0 when the
  column is present. When a cost column is absent, `df.get` returns the
  scalar default 0, `pd.to_numeric` keeps it a scalar, and the
  `.fillna(0)` call on that scalar raises an `AttributeError` (only a
  `Series` has `fillna`), so normalization itself is fallible.
* `Series.mean()` of an empty series is `NaN` in pandas; the embedding
  returns `Option ℚ` with `none` for that case.
-/

namespace Transport

/-- Presence flags for the recognized columns of the uploaded sheet,
after the `COLUMN_MAP` renaming of `src/app.py` lines 11-21 and 33.
Unrecognized extra columns are passed through untouched and never read
by the pipeline, so they are not modelled. -/
structure Cols where
  assign_date : Bool
  job_id : Bool
  num_deliveries : Bool
  num_items : Bool
  total_cost : Bool
  additional_cost : Bool
  route_name : Bool
  success_count : Bool
  fail_count : Bool
deriving DecidableEq

/-- One row of the uploaded sheet after renaming (line 33) and date
parsing (lines 36-37): cost cells are still raw (`none` = non-numeric
or missing), the date cell carries its parse result (`none` = `NaT`).
A field is meaningful only when the matching `Cols` flag is set. -/
structure RawRow where
  assign_date : Option Nat
  job_id : Nat
  num_deliveries : ℚ
  num_items : ℚ
  total_cost : Option ℚ
  additional_cost : Option ℚ
  route_name : Option String
  success_count : ℚ
  fail_count : ℚ
deriving DecidableEq

/-- The uploaded sheet after renaming: presence flags plus rows. -/
structure RawTable where
  cols : Cols
  rows : List RawRow
deriving DecidableEq

/-- A canonical (normalized) row: both cost columns exist and are
numeric, and `cost_sum` has been derived (lines 40-44). -/
structure CanRow where
  assign_date : Option Nat
  job_id : Nat
  num_deliveries : ℚ
  num_items : ℚ
  total_cost : ℚ
  additional_cost : ℚ
  cost_sum : ℚ
  route_name : Option String
  success_count : ℚ
  fail_count : ℚ
deriving DecidableEq

/-- A normalized table. -/
structure CanTable where
  cols : Cols
  rows : List CanRow
deriving DecidableEq

/-- Lines 36-44 applied to one row of a table whose cost columns are
both present: keep the parsed date and pass-through fields, zero-fill a
non-numeric or missing cost cell (`to_numeric` coerce then `fillna`),
and derive `cost_sum`. -/
def normalizeRow (r : RawRow) : CanRow :=
  { assign_date := r.assign_date
    job_id := r.job_id
    num_deliveries := r.num_deliveries
    num_items := r.num_items
    total_cost := r.total_cost.getD 0
    additional_cost := r.additional_cost.getD 0
    cost_sum := r.total_cost.getD 0 + r.additional_cost.getD 0
    route_name := r.route_name
    success_count := r.success_count
    fail_count := r.fail_count }

/-- The canonical table normalization produces when it completes. -/
def canOf (t : RawTable) : CanTable :=
  { cols := t.cols, rows := t.rows.map normalizeRow }

/-- Lines 32-44: normalization. For a present cost column the cell-wise
coercion of line 40/41 zero-fills bad cells; for an absent one `df.get`
returns the scalar default 0, `pd.to_numeric` keeps it a scalar, and
the `.fillna(0)` call on that scalar raises an `AttributeError` (only a
`Series` has `fillna`) - despite the comment on line 39 announcing
zero-filling - so normalization completes only when both cost columns
are present, `total_cost` being indexed first. -/
def normalizeE (t : RawTable) : Except String CanTable :=
  if t.cols.total_cost = false then
    .error "AttributeError: fillna on scalar (total_cost, line 40)"
  else if t.cols.additional_cost = false then
    .error "AttributeError: fillna on scalar (additional_cost, line 41)"
  else .ok (canOf t)

/-- Line 53, one cell: `start <= assign_date <= end`. A `NaT` date
compares false against both bounds, so the row is dropped. -/
def dateCellKeep (s e : Nat) (d : Option Nat) : Bool :=
  match d with
  | none => false
  | some x => decide (s ≤ x) && decide (x ≤ e)

/-- Lines 48-53: the date filter runs only when the `assign_date` column
exists and the widget returned a two-element range (`dr = some (s, e)`). -/
def applyDateFilter (c : Cols) (dr : Option (Nat × Nat)) (rows : List CanRow) :
    List CanRow :=
  if c.assign_date then
    match dr with
    | some (s, e) => rows.filter fun r => dateCellKeep s e r.assign_date
    | none => rows
  else rows

/-- Line 58, one cell: `route_name.isin(route_filter)`; a null route is
never in a list of route names. -/
def routeCellKeep (rs : List String) (n : Option String) : Bool :=
  match n with
  | none => false
  | some x => rs.contains x

/-- Lines 55-58: the route filter runs only when the `route_name` column
exists and the multiselect is non-empty. -/
def applyRouteFilter (c : Cols) (rs : List String) (rows : List CanRow) :
    List CanRow :=
  if c.route_name && !rs.isEmpty then rows.filter fun r => routeCellKeep rs r.route_name
  else rows

/-- Lines 48-58: the full filter step, date filter then route filter,
leaving the column flags untouched. -/
def filterTable (t : CanTable) (dr : Option (Nat × Nat)) (rs : List String) :
    CanTable :=
  { cols := t.cols, rows := applyRouteFilter t.cols rs (applyDateFilter t.cols dr t.rows) }

/-- The row-keeping predicate in the words of the spec (§4.2): keep a row
iff (no date filter, or `assign_date` is non-null and inside the
inclusive range) and (no route filter, or `route_name` is in the
selected set). -/
def specKeep (dr : Option (Nat × Nat)) (rs : List String) (r : CanRow) : Bool :=
  (match dr with
   | none => true
   | some (s, e) =>
     match r.assign_date with
     | none => false
     | some d => decide (s ≤ d) && decide (d ≤ e)) &&
  (rs.isEmpty ||
   (match r.route_name with
    | none => false
    | some x => rs.contains x))

/-- Insert `a` into `l` before the first element it compares `le` to. -/
def insertBy (le : α → α → Bool) (a : α) : List α → List α
  | [] => [a]
  | b :: l => if le a b then a :: b :: l else b :: insertBy le a l

/-- Stable insertion sort by a boolean comparison, modelling the
ascending key order `pandas` gives `groupby` results and `sort_values`. -/
def sortBy (le : α → α → Bool) : List α → List α
  | [] => []
  | a :: l => insertBy le a (sortBy le l)

/-- Byte-wise comparison of char lists, ascending. -/
def charsLe : List Char → List Char → Bool
  | [], _ => true
  | _ :: _, [] => false
  | a :: as, b :: bs =>
    if a.toNat < b.toNat then true
    else if b.toNat < a.toNat then false
    else charsLe as bs

/-- Lexicographic string order used to sort route-name group keys. -/
def strLe (a b : String) : Bool := charsLe a.toList b.toList

/-- `Series.nunique()`: the number of distinct values. -/
def nunique (l : List Nat) : Nat := l.dedup.length

/-- The distinct job count of a table, `df[job_id].nunique()` (line 64). -/
def totalJobsOf (t : CanTable) : Nat := nunique (t.rows.map (·.job_id))

/-- The three headline metrics of lines 63-66. -/
structure OpSummary where
  totalJobs : Nat
  totalDeliveries : ℚ
  totalItems : ℚ
deriving DecidableEq

/-- Lines 63-66: `df[job_id].nunique()`, `df[num_deliveries].sum()`,
`df[num_items].sum()`. Each indexes its column directly, so an absent
column is a `KeyError`, modelled as `Except.error`. -/
def operationalSummary (t : CanTable) : Except String OpSummary :=
  if t.cols.job_id = false then .error "KeyError: job_id"
  else if t.cols.num_deliveries = false then .error "KeyError: num_deliveries"
  else if t.cols.num_items = false then .error "KeyError: num_items"
  else .ok { totalJobs := totalJobsOf t
             totalDeliveries := (t.rows.map (·.num_deliveries)).sum
             totalItems := (t.rows.map (·.num_items)).sum }

/-- One group of the per-date trend (lines 69-73). -/
structure TrendRow where
  date : Nat
  jobs : Nat
  deliveries : ℚ
  items : ℚ
deriving DecidableEq

/-- The distinct non-null dates of the table, ascending: `groupby`
drops `NaT` keys and sorts the remaining keys. -/
def trendDates (t : CanTable) : List Nat :=
  sortBy (fun a b => Nat.ble a b) (t.rows.filterMap (·.assign_date)).dedup

/-- The rows of one date group. -/
def rowsOnDate (t : CanTable) (d : Nat) : List CanRow :=
  t.rows.filter fun r => decide (r.assign_date = some d)

/-- Lines 68-73: the per-date trend, skipped (`ok none`) when the date
column is absent; the aggregated columns are indexed directly, so their
absence is a `KeyError`. -/
def trendByDate (t : CanTable) : Except String (Option (List TrendRow)) :=
  if t.cols.assign_date = false then .ok none
  else if t.cols.job_id = false then .error "KeyError: job_id"
  else if t.cols.num_deliveries = false then .error "KeyError: num_deliveries"
  else if t.cols.num_items = false then .error "KeyError: num_items"
  else .ok (some ((trendDates t).map fun d =>
    { date := d
      jobs := nunique ((rowsOnDate t d).map (·.job_id))
      deliveries := ((rowsOnDate t d).map (·.num_deliveries)).sum
      items := ((rowsOnDate t d).map (·.num_items)).sum }))

/-- `Series.mean()`: `none` models the `NaN` pandas returns on an empty
series; otherwise the exact arithmetic mean. -/
def qmean (l : List ℚ) : Option ℚ :=
  if l.isEmpty then none else some (l.sum / (l.length : ℚ))

/-- The cost figures of lines 88-96. -/
structure CostView where
  totalCost : ℚ
  avgCostPerJob : Option ℚ
  baseCostSum : ℚ
  additionalCostSum : ℚ
deriving DecidableEq

/-- Lines 88-96: `cost_sum`, `total_cost` and `additional_cost` always
exist after normalization, so this view never errors. -/
def costAnalysis (t : CanTable) : CostView :=
  { totalCost := (t.rows.map (·.cost_sum)).sum
    avgCostPerJob := qmean (t.rows.map (·.cost_sum))
    baseCostSum := (t.rows.map (·.total_cost)).sum
    additionalCostSum := (t.rows.map (·.additional_cost)).sum }

/-- One group of the per-route aggregation (lines 111-115). -/
structure RoutePerfRow where
  route_name : String
  total_jobs : Nat
  total_cost : ℚ
  avg_cost : Option ℚ
deriving DecidableEq

/-- The distinct non-null route names, ascending: `groupby` drops null
keys and sorts the remaining keys. -/
def routeKeys (t : CanTable) : List String :=
  sortBy strLe (t.rows.filterMap (·.route_name)).dedup

/-- The rows of one route group. -/
def rowsOnRoute (t : CanTable) (x : String) : List CanRow :=
  t.rows.filter fun r => decide (r.route_name = some x)

/-- Lines 111-115: per-route distinct jobs, total cost and mean cost. -/
def routePerfRows (t : CanTable) : List RoutePerfRow :=
  (routeKeys t).map fun x =>
    { route_name := x
      total_jobs := nunique ((rowsOnRoute t x).map (·.job_id))
      total_cost := ((rowsOnRoute t x).map (·.cost_sum)).sum
      avg_cost := qmean ((rowsOnRoute t x).map (·.cost_sum)) }

/-- The per-route `total_jobs` figures summed over every route group. -/
def sumRouteJobs (t : CanTable) : Nat :=
  ((routePerfRows t).map (·.total_jobs)).sum

/-- Line 135: `sort_values(avg_cost, ascending = True)`. Group means are
never `NaN` (every group is non-empty), so `getD 0` only names a total
order on the values that occur. -/
def cheapestFirst (rp : List RoutePerfRow) : List RoutePerfRow :=
  sortBy (fun a b => decide (a.avg_cost.getD 0 ≤ b.avg_cost.getD 0)) rp

/-- Lines 109-138: the route-performance section, skipped (`ok none`)
when the route column is absent. Line 136 takes `.iloc[0]` of the
cheapest-first ranking, which is an `IndexError` when there are no
groups at all. -/
def routeSection (t : CanTable) :
    Except String (Option (List RoutePerfRow × RoutePerfRow)) :=
  if t.cols.route_name = false then .ok none
  else if t.cols.job_id = false then .error "KeyError: job_id"
  else
    match cheapestFirst (routePerfRows t) with
    | [] => .error "IndexError: index 0 out of bounds"
    | c :: _ => .ok (some (routePerfRows t, c))

/-- Line 170: `df[success_count].sum()`. -/
def successSum (t : CanTable) : ℚ := (t.rows.map (·.success_count)).sum

/-- Line 171: `df[fail_count].sum()`. -/
def failSum (t : CanTable) : ℚ := (t.rows.map (·.fail_count)).sum

/-- Lines 173-174: `x / tot * 100 if tot else 0`. -/
def pct (x tot : ℚ) : ℚ := if tot ≠ 0 then x / tot * 100 else 0

/-- Lines 169-178: the success/fail percentages, rendered only when both
count columns exist (`none` when the section is skipped). -/
def deliveryPerformance (t : CanTable) : Option (ℚ × ℚ) :=
  if t.cols.success_count && t.cols.fail_count then
    some (pct (successSum t) (successSum t + failSum t),
          pct (failSum t) (successSum t + failSum t))
  else none

/-- Whether a fallible computation produced a value. -/
def isOkE : Except ε α → Bool
  | .ok _ => true
  | .error _ => false

/-- All nine recognized columns present (used by concrete examples). -/
def allCols : Cols :=
  { assign_date := true, job_id := true, num_deliveries := true
    num_items := true, total_cost := true, additional_cost := true
    route_name := true, success_count := true, fail_count := true }

/-- A concrete raw row used by concrete examples. -/
def exRow1 : RawRow :=
  { assign_date := some 1, job_id := 7, num_deliveries := 2, num_items := 3
    total_cost := some 10, additional_cost := some 4, route_name := some "A"
    success_count := 1, fail_count := 0 }

/-- A concrete raw row whose two cost cells are non-numeric. -/
def exRow2 : RawRow :=
  { assign_date := none, job_id := 8, num_deliveries := 1, num_items := 1
    total_cost := none, additional_cost := none, route_name := none
    success_count := 0, fail_count := 0 }

/-- A one-row raw table whose `total_cost` column is absent. -/
def exRawNoCost : RawTable :=
  { cols := { allCols with total_cost := false }, rows := [exRow1] }

/-- A one-row raw table whose `additional_cost` column is absent. -/
def exRawNoAddCost : RawTable :=
  { cols := { allCols with additional_cost := false }, rows := [exRow1] }

/-- A raw table carrying only the columns normalization and the summary
require: both cost columns and the three summary columns, nothing else;
one of its rows has non-numeric cost cells. -/
def exRawMin : RawTable :=
  { cols := { assign_date := false, job_id := true, num_deliveries := true
              num_items := true, total_cost := true, additional_cost := true
              route_name := false, success_count := false, fail_count := false }
    rows := [exRow1, exRow2] }

/-- A canonical row whose numeric fields are all zero, keeping only the
date, job and route data; used by concrete examples. -/
def simpleRow (d : Option Nat) (j : Nat) (x : Option String) : CanRow :=
  { assign_date := d, job_id := j, num_deliveries := 0, num_items := 0
    total_cost := 0, additional_cost := 0, cost_sum := 0
    route_name := x, success_count := 0, fail_count := 0 }

/-- A concrete canonical table with dates 1, 2 and null. -/
def exCanC2 : CanTable :=
  { cols := allCols
    rows := [simpleRow (some 1) 1 none, simpleRow (some 2) 2 none,
             simpleRow none 3 none] }

theorem filter_again (l : List α) (p : α → Bool) :
    (l.filter p).filter p = l.filter p := by
  rw [List.filter_filter]
  apply List.filter_congr
  intro a _
  exact Bool.and_self (p a)

theorem filter_swap (l : List α) (p q : α → Bool) :
    (l.filter p).filter q = (l.filter q).filter p := by
  rw [List.filter_filter, List.filter_filter]
  apply List.filter_congr
  intro a _
  exact Bool.and_comm (q a) (p a)

theorem applyDateFilter_idem (c : Cols) (dr : Option (Nat × Nat))
    (rows : List CanRow) :
    applyDateFilter c dr (applyDateFilter c dr rows) = applyDateFilter c dr rows := by
  cases dr with
  | none => by_cases hc : c.assign_date = true <;> simp [applyDateFilter, hc]
  | some se =>
    obtain ⟨s, e⟩ := se
    by_cases hc : c.assign_date = true <;> simp [applyDateFilter, hc, filter_again]

theorem applyRouteFilter_idem (c : Cols) (rs : List String) (rows : List CanRow) :
    applyRouteFilter c rs (applyRouteFilter c rs rows) = applyRouteFilter c rs rows := by
  by_cases hg : (c.route_name && !rs.isEmpty) = true <;>
    simp [applyRouteFilter, hg, filter_again]

theorem applyDate_applyRoute_comm (c : Cols) (dr : Option (Nat × Nat))
    (rs : List String) (rows : List CanRow) :
    applyDateFilter c dr (applyRouteFilter c rs rows) =
      applyRouteFilter c rs (applyDateFilter c dr rows) := by
  cases dr with
  | none => by_cases hc : c.assign_date = true <;> simp [applyDateFilter, hc]
  | some se =>
    obtain ⟨s, e⟩ := se
    by_cases hc : c.assign_date = true <;>
      by_cases hg : (c.route_name && !rs.isEmpty) = true <;>
        simp [applyDateFilter, applyRouteFilter, hc, hg]
    apply List.filter_congr
    intro a _
    exact Bool.and_comm _ _

/-- C2: a row survives the filter step iff it satisfies the spec's
keep-predicate: (no date filter, or the date is non-null and inside the
inclusive range) and (no route filter, or the route is in the selected
set); in particular a null-dated row is dropped whenever a date filter
is active. The hypotheses say each filter can only be active when its
column exists, which is how the sidebar constructs the selection. -/
theorem c2_filter_matches_spec (t : CanTable) (dr : Option (Nat × Nat))
    (rs : List String)
    (hd : dr.isSome = true → t.cols.assign_date = true)
    (hr : rs ≠ [] → t.cols.route_name = true) :
    (filterTable t dr rs).rows = t.rows.filter (specKeep dr rs) := by
  show applyRouteFilter t.cols rs (applyDateFilter t.cols dr t.rows) = _
  cases dr with
  | none =>
    have hdate : applyDateFilter t.cols none t.rows = t.rows := by
      unfold applyDateFilter; split <;> rfl
    rw [hdate]
    by_cases hrs : rs = []
    · subst hrs
      have hroute : applyRouteFilter t.cols [] t.rows = t.rows := by
        simp [applyRouteFilter]
      rw [hroute]
      symm
      rw [List.filter_eq_self]
      intro a _
      simp [specKeep]
    · have hcol := hr hrs
      have hne : rs.isEmpty = false := by
        cases rs with
        | nil => exact absurd rfl hrs
        | cons a l => rfl
      simp only [applyRouteFilter, hcol, hne, Bool.not_false, Bool.and_true, if_true]
      apply List.filter_congr
      intro a _
      cases h : a.route_name <;> simp [specKeep, routeCellKeep, hne, h]
  | some se =>
    obtain ⟨s, e⟩ := se
    have hcolA := hd rfl
    have hdate : applyDateFilter t.cols (some (s, e)) t.rows =
        t.rows.filter fun r => dateCellKeep s e r.assign_date := by
      simp [applyDateFilter, hcolA]
    rw [hdate]
    by_cases hrs : rs = []
    · subst hrs
      have hroute : ∀ l, applyRouteFilter t.cols [] l = l := by
        intro l; simp [applyRouteFilter]
      rw [hroute]
      apply List.filter_congr
      intro a _
      cases h : a.assign_date <;> simp [specKeep, dateCellKeep, h]
    · have hcolR := hr hrs
      have hne : rs.isEmpty = false := by
        cases rs with
        | nil => exact absurd rfl hrs
        | cons a l => rfl
      simp only [applyRouteFilter, hcolR, hne, Bool.not_false, Bool.and_true, if_true]
      rw [List.filter_filter]
      apply List.filter_congr
      intro a _
      cases hA : a.assign_date <;> cases hR : a.route_name <;>
        simp [specKeep, dateCellKeep, routeCellKeep, hne, hA, hR, Bool.and_comm]

/-- Witness for C2: the date filter [2, 2] over rows dated 1, 2 and null. -/
theorem c2_filter_matches_spec_witness :
    (filterTable exCanC2 (some (2, 2)) []).rows =
      exCanC2.rows.filter (specKeep (some (2, 2)) []) :=
  c2_filter_matches_spec exCanC2 (some (2, 2)) [] (fun _ => rfl)
    (fun h => absurd rfl h)

/-- C8: the filter step is idempotent for a fixed selection. -/
theorem c8_filter_idempotent (t : CanTable) (dr : Option (Nat × Nat))
    (rs : List String) :
    filterTable (filterTable t dr rs) dr rs = filterTable t dr rs := by
  show ({ cols := t.cols
          rows := applyRouteFilter t.cols rs (applyDateFilter t.cols dr
            (applyRouteFilter t.cols rs (applyDateFilter t.cols dr t.rows))) } : CanTable) = _
  rw [applyDate_applyRoute_comm, applyDateFilter_idem, applyRouteFilter_idem]
  rfl

/-- C10: an empty route selection applies no route filtering at all; the
rows are those of the date filter alone, not the empty set. -/
theorem c10_empty_route_selection (t : CanTable) (dr : Option (Nat × Nat))
    (_h : t.cols.route_name = true) :
    (filterTable t dr []).rows = applyDateFilter t.cols dr t.rows := by
  show applyRouteFilter t.cols [] (applyDateFilter t.cols dr t.rows) = _
  simp [applyRouteFilter]

/-- Witness for C10 at a concrete table. -/
theorem c10_empty_route_selection_witness :
    (filterTable exCanC2 (some (1, 2)) []).rows =
      applyDateFilter exCanC2.cols (some (1, 2)) exCanC2.rows :=
  c10_empty_route_selection exCanC2 (some (1, 2)) rfl

/-- On the success path of normalization every record does satisfy the
derived-cost identity, whatever its raw cost cells held. -/
theorem cost_sum_of_normalizeRow (r : RawRow) :
    (normalizeRow r).cost_sum =
      (normalizeRow r).total_cost + (normalizeRow r).additional_cost := rfl

/-- C1: the program never treats an absent cost column as zero, despite
the comment on line 39 announcing exactly that. Evaluating the embedded
normalization at a table whose `total_cost` column is absent shows it
raising the line-40 `AttributeError` (the scalar `df.get` returns has no
`fillna`), so no record set exists on that path at all. -/
theorem c1_absent_cost_column_raises :
    normalizeE exRawNoCost =
      .error "AttributeError: fillna on scalar (total_cost, line 40)" := rfl

/-- C7 counterexample: for a raw table whose `additional_cost` column is
absent, normalization raises the line-41 `AttributeError` and produces
no canonical table at all, so it is not true that every raw table yields
a canonical table of equal row count. -/
theorem c7_counterexample : isOkE (normalizeE exRawNoAddCost) = false := rfl

/-- C7 as amended: whenever normalization completes (both cost columns
present; otherwise line 40/41 raises before any table exists), the
canonical table has exactly the raw row count: no row is dropped,
duplicated, or merged. -/
theorem c7_row_count_preserved (t : RawTable) (ct : CanTable)
    (h : normalizeE t = .ok ct) : ct.rows.length = t.rows.length := by
  unfold normalizeE at h
  split at h
  · simp at h
  · split at h
    · simp at h
    · rw [Except.ok.injEq] at h
      subst h
      simp [canOf]

/-- Witness for the amended C7 at a concrete table. -/
theorem c7_row_count_preserved_witness :
    (canOf exRawMin).rows.length = exRawMin.rows.length :=
  c7_row_count_preserved exRawMin (canOf exRawMin) rfl

/-- C6: when both count columns exist the percentages are
`sum / (successSum + failSum) * 100` for each side, and a zero
denominator yields exactly (0, 0) rather than an error or `NaN`. -/
theorem c6_delivery_percentages (t : CanTable)
    (hs : t.cols.success_count = true) (hf : t.cols.fail_count = true) :
    ∃ ps pf, deliveryPerformance t = some (ps, pf) ∧
      (successSum t + failSum t ≠ 0 →
        ps = successSum t / (successSum t + failSum t) * 100 ∧
        pf = failSum t / (successSum t + failSum t) * 100) ∧
      (successSum t + failSum t = 0 → ps = 0 ∧ pf = 0) := by
  refine ⟨pct (successSum t) (successSum t + failSum t),
    pct (failSum t) (successSum t + failSum t), ?_, ?_, ?_⟩
  · simp [deliveryPerformance, hs, hf]
  · intro h; constructor <;> simp [pct, h]
  · intro h; constructor <;> simp [pct, h]

/-- Witness for C6 at a concrete table. -/
theorem c6_delivery_percentages_witness :
    ∃ ps pf, deliveryPerformance exCanC2 = some (ps, pf) ∧
      (successSum exCanC2 + failSum exCanC2 ≠ 0 →
        ps = successSum exCanC2 / (successSum exCanC2 + failSum exCanC2) * 100 ∧
        pf = failSum exCanC2 / (successSum exCanC2 + failSum exCanC2) * 100) ∧
      (successSum exCanC2 + failSum exCanC2 = 0 → ps = 0 ∧ pf = 0) :=
  c6_delivery_percentages exCanC2 rfl rfl

/-- C9: the cost view is the sum of `cost_sum`, its mean over all rows
(the divisor is the row count, not the distinct-job count), and the sums
of the two source cost columns. -/
theorem c9_cost_analysis (t : CanTable) (h : t.rows ≠ []) :
    (costAnalysis t).totalCost = (t.rows.map (·.cost_sum)).sum ∧
    (costAnalysis t).avgCostPerJob =
      some ((t.rows.map (·.cost_sum)).sum / (t.rows.length : ℚ)) ∧
    (costAnalysis t).baseCostSum = (t.rows.map (·.total_cost)).sum ∧
    (costAnalysis t).additionalCostSum = (t.rows.map (·.additional_cost)).sum := by
  refine ⟨rfl, ?_, rfl, rfl⟩
  have hne : (t.rows.map (·.cost_sum)).isEmpty = false := by
    cases hm : t.rows with
    | nil => exact absurd hm h
    | cons a l => rfl
  simp [costAnalysis, qmean, hne]

/-- Witness for C9 at a concrete table. -/
theorem c9_cost_analysis_witness :
    (costAnalysis exCanC2).totalCost = (exCanC2.rows.map (·.cost_sum)).sum ∧
    (costAnalysis exCanC2).avgCostPerJob =
      some ((exCanC2.rows.map (·.cost_sum)).sum / (exCanC2.rows.length : ℚ)) ∧
    (costAnalysis exCanC2).baseCostSum = (exCanC2.rows.map (·.total_cost)).sum ∧
    (costAnalysis exCanC2).additionalCostSum =
      (exCanC2.rows.map (·.additional_cost)).sum :=
  c9_cost_analysis exCanC2 (by simp [exCanC2])

/-- An empty table with every column present. -/
def exEmptyAll : CanTable := { cols := allCols, rows := [] }

/-- C4 counterexample: on the empty record set with every column present
the route-performance section raises (the `.iloc[0]` cheapest-route
lookup on an empty grouping) and `avgCostPerJob` is `NaN` (the mean of
an empty series), not zero, so not every aggregate degrades to
zero/empty without raising. -/
theorem c4_counterexample :
    routeSection exEmptyAll = .error "IndexError: index 0 out of bounds" ∧
    (costAnalysis exEmptyAll).avgCostPerJob = none := by
  constructor <;> rfl

/-- C4 as amended: on an empty record set the operational summary is all
zeros, the trend is the empty sequence, and the cost totals are zero
without raising, but `avgCostPerJob` is `NaN` (mean of an empty series)
rather than zero, and the route-performance section raises whenever the
route column is present. -/
theorem c4_empty_table_aggregates (t : CanTable) (h : t.rows = [])
    (hj : t.cols.job_id = true) (hd : t.cols.num_deliveries = true)
    (hi : t.cols.num_items = true) :
    operationalSummary t =
      .ok { totalJobs := 0, totalDeliveries := 0, totalItems := 0 } ∧
    (t.cols.assign_date = true → trendByDate t = .ok (some [])) ∧
    (t.cols.assign_date = false → trendByDate t = .ok none) ∧
    costAnalysis t =
      { totalCost := 0, avgCostPerJob := none
        baseCostSum := 0, additionalCostSum := 0 } ∧
    (t.cols.route_name = true →
      routeSection t = .error "IndexError: index 0 out of bounds") := by
  obtain ⟨c, rows⟩ := t
  simp only at h hj hd hi
  subst h
  refine ⟨?_, ?_, ?_, ?_, ?_⟩
  · simp [operationalSummary, hj, hd, hi, totalJobsOf, nunique]
  · intro hA; simp only at hA
    simp [trendByDate, hA, hj, hd, hi, trendDates, sortBy]
  · intro hA; simp only at hA
    simp [trendByDate, hA]
  · simp [costAnalysis, qmean]
  · intro hR; simp only at hR
    simp [routeSection, hR, hj, routePerfRows, routeKeys, sortBy, cheapestFirst]

/-- Witness for the amended C4 at the concrete empty table. -/
theorem c4_empty_table_aggregates_witness :
    operationalSummary exEmptyAll =
      .ok { totalJobs := 0, totalDeliveries := 0, totalItems := 0 } ∧
    (exEmptyAll.cols.assign_date = true → trendByDate exEmptyAll = .ok (some [])) ∧
    (exEmptyAll.cols.assign_date = false → trendByDate exEmptyAll = .ok none) ∧
    costAnalysis exEmptyAll =
      { totalCost := 0, avgCostPerJob := none
        baseCostSum := 0, additionalCostSum := 0 } ∧
    (exEmptyAll.cols.route_name = true →
      routeSection exEmptyAll = .error "IndexError: index 0 out of bounds") :=
  c4_empty_table_aggregates exEmptyAll rfl rfl rfl rfl

/-- A one-row raw table whose `job_id` column is absent. -/
def exRawNoJob : RawTable := { cols := { allCols with job_id := false }, rows := [exRow1] }

/-- C3 counterexample: a table with both cost columns but no `job_id`
column normalizes fine, and then the operational summary raises a
`KeyError` (line 64 indexes the column unguarded), so absence of an
expected column is not always harmless. -/
theorem c3_counterexample :
    normalizeE exRawNoJob = .ok (canOf exRawNoJob) ∧
    operationalSummary (canOf exRawNoJob) = .error "KeyError: job_id" :=
  ⟨rfl, rfl⟩

/-- C3 as amended: absence of the `assign_date`, `route_name`, or
`success_count`/`fail_count` columns never raises - the date-, route-
and delivery-dependent views are skipped while the rest is produced,
and non-numeric cost cells of the present cost columns are zero-filled.
But the `job_id`, `num_deliveries` and `num_items` columns are required
by the summary aggregation (their absence raises a `KeyError`), and the
`total_cost`/`additional_cost` columns are required by normalization
itself (their absence raises the line 40/41 `AttributeError`). -/
theorem c3_optional_columns_degrade (t : RawTable)
    (hj : t.cols.job_id = true) (hd : t.cols.num_deliveries = true)
    (hi : t.cols.num_items = true) (htc : t.cols.total_cost = true)
    (hac : t.cols.additional_cost = true) :
    normalizeE t = .ok (canOf t) ∧
    isOkE (operationalSummary (canOf t)) = true ∧
    (t.cols.assign_date = false → trendByDate (canOf t) = .ok none) ∧
    (t.cols.route_name = false → routeSection (canOf t) = .ok none) ∧
    ((t.cols.success_count && t.cols.fail_count) = false →
      deliveryPerformance (canOf t) = none) ∧
    (∀ r0 ∈ t.rows, r0.total_cost = none → (normalizeRow r0).total_cost = 0) ∧
    (∀ r0 ∈ t.rows, r0.additional_cost = none →
      (normalizeRow r0).additional_cost = 0) := by
  refine ⟨?_, ?_, ?_, ?_, ?_, ?_, ?_⟩
  · simp [normalizeE, htc, hac]
  · simp [operationalSummary, canOf, hj, hd, hi, isOkE]
  · intro hA; simp [trendByDate, canOf, hA]
  · intro hR; simp [routeSection, canOf, hR]
  · intro hsf; simp [deliveryPerformance, canOf, hsf]
  · intro r0 _ hc; simp [normalizeRow, hc]
  · intro r0 _ hc; simp [normalizeRow, hc]

/-- Witness for the amended C3 at a table with only the required
columns, one row of which has non-numeric cost cells. -/
theorem c3_optional_columns_degrade_witness :
    normalizeE exRawMin = .ok (canOf exRawMin) ∧
    isOkE (operationalSummary (canOf exRawMin)) = true ∧
    (exRawMin.cols.assign_date = false → trendByDate (canOf exRawMin) = .ok none) ∧
    (exRawMin.cols.route_name = false → routeSection (canOf exRawMin) = .ok none) ∧
    ((exRawMin.cols.success_count && exRawMin.cols.fail_count) = false →
      deliveryPerformance (canOf exRawMin) = none) ∧
    (∀ r0 ∈ exRawMin.rows, r0.total_cost = none →
      (normalizeRow r0).total_cost = 0) ∧
    (∀ r0 ∈ exRawMin.rows, r0.additional_cost = none →
      (normalizeRow r0).additional_cost = 0) :=
  c3_optional_columns_degrade exRawMin rfl rfl rfl rfl rfl

theorem perm_insertBy (le : α → α → Bool) (a : α) (l : List α) :
    (insertBy le a l).Perm (a :: l) := by
  induction l with
  | nil => exact List.Perm.refl _
  | cons b l ih =>
    show (if le a b then a :: b :: l else b :: insertBy le a l).Perm (a :: b :: l)
    split
    · exact List.Perm.refl _
    · exact (ih.cons b).trans (List.Perm.swap a b l)

theorem perm_sortBy (le : α → α → Bool) (l : List α) : (sortBy le l).Perm l := by
  induction l with
  | nil => exact List.Perm.refl _
  | cons a l ih => exact (perm_insertBy le a (sortBy le l)).trans (ih.cons a)

theorem nunique_eq_card (l : List Nat) : nunique l = l.toFinset.card :=
  (List.card_toFinset l).symm

theorem nunique_le_of_sublist {l₁ l₂ : List Nat} (h : List.Sublist l₁ l₂) :
    nunique l₁ ≤ nunique l₂ := by
  rw [nunique_eq_card, nunique_eq_card]
  apply Finset.card_le_card
  intro x hx
  rw [List.mem_toFinset] at hx ⊢
  exact h.mem hx

/-- Distinct jobs across all given rows never exceed the per-key distinct
job counts summed, as long as each row carries one of the keys: a job
whose rows span k keys is counted once on the left and k times on the
right. -/
theorem nunique_le_sum_over_keys (keys : List String) (rows : List CanRow)
    (h : ∀ r ∈ rows, ∃ x ∈ keys, r.route_name = some x) :
    nunique (rows.map (·.job_id)) ≤
      (keys.map fun x =>
        nunique ((rows.filter fun r => decide (r.route_name = some x)).map
          (·.job_id))).sum := by
  induction keys generalizing rows with
  | nil =>
    cases rows with
    | nil => simp [nunique]
    | cons r l =>
      rcases h r (by simp) with ⟨x, hx, _⟩
      exact absurd hx (List.not_mem_nil x)
  | cons x ks ih =>
    have hsplit : nunique (rows.map (·.job_id)) ≤
        nunique ((rows.filter fun r => decide (r.route_name = some x)).map (·.job_id)) +
          nunique ((rows.filter fun r => !decide (r.route_name = some x)).map (·.job_id)) := by
      rw [nunique_eq_card, nunique_eq_card, nunique_eq_card]
      refine le_trans (Finset.card_le_card ?_) (Finset.card_union_le _ _)
      intro j hj
      rw [List.mem_toFinset, List.mem_map] at hj
      obtain ⟨r, hr, rfl⟩ := hj
      rw [Finset.mem_union, List.mem_toFinset, List.mem_toFinset]
      by_cases hpr : decide (r.route_name = some x) = true
      · exact Or.inl (List.mem_map.mpr ⟨r, List.mem_filter.mpr ⟨hr, hpr⟩, rfl⟩)
      · exact Or.inr (List.mem_map.mpr ⟨r, List.mem_filter.mpr ⟨hr, by simp [hpr]⟩, rfl⟩)
    have hB : ∀ r ∈ rows.filter fun r => !decide (r.route_name = some x),
        ∃ y ∈ ks, r.route_name = some y := by
      intro r hr
      rw [List.mem_filter] at hr
      obtain ⟨hr, hpr⟩ := hr
      rcases h r hr with ⟨y, hy, hry⟩
      rcases List.mem_cons.mp hy with hyx | hyk
      · subst hyx
        rw [hry] at hpr
        simp at hpr
      · exact ⟨y, hyk, hry⟩
    have hIH := ih _ hB
    have hmono :
        (ks.map fun y =>
          nunique (((rows.filter fun r => !decide (r.route_name = some x)).filter
            fun r => decide (r.route_name = some y)).map (·.job_id))).sum ≤
        (ks.map fun y =>
          nunique ((rows.filter fun r => decide (r.route_name = some y)).map
            (·.job_id))).sum := by
      apply List.sum_le_sum
      intro y _
      exact nunique_le_of_sublist
        (((List.filter_sublist rows).filter _).map (·.job_id))
    calc nunique (rows.map (·.job_id)) ≤ _ := hsplit
      _ ≤ _ := Nat.add_le_add_left (le_trans hIH hmono) _
      _ = (((x :: ks)).map fun y =>
            nunique ((rows.filter fun r => decide (r.route_name = some y)).map
              (·.job_id))).sum := by rw [List.map_cons, List.sum_cons]

/-- A table in which job 1 is performed on two different routes. -/
def exC5 : CanTable :=
  { cols := allCols
    rows := [simpleRow none 1 (some "A"), simpleRow none 1 (some "B")] }

/-- C5 counterexample: every row has a non-null route, yet the per-route
distinct job counts sum to 2 while the overall distinct job count is 1,
because the same `job_id` appears on two routes; the claimed inequality
(sum at most the overall count) fails. -/
theorem c5_counterexample :
    (exC5.rows.all fun r => r.route_name.isSome) = true ∧
    ¬ sumRouteJobs exC5 ≤ totalJobsOf exC5 := by
  constructor <;> decide

/-- C5 as amended: when every row has a non-null `route_name` the sum of
the per-route distinct job counts is at least (not at most) the overall
distinct job count; a `job_id` whose rows span several routes is counted
once overall but once per route in the sum. -/
theorem c5_route_jobs_sum_ge (t : CanTable)
    (h : ∀ r ∈ t.rows, r.route_name ≠ none) :
    totalJobsOf t ≤ sumRouteJobs t := by
  have hkeys : ∀ r ∈ t.rows, ∃ x ∈ routeKeys t, r.route_name = some x := by
    intro r hr
    cases hx : r.route_name with
    | none => exact absurd hx (h r hr)
    | some x =>
      refine ⟨x, ?_, rfl⟩
      unfold routeKeys
      rw [(perm_sortBy strLe _).mem_iff, List.mem_dedup]
      exact List.mem_filterMap.mpr ⟨r, hr, hx⟩
  have hmain := nunique_le_sum_over_keys (routeKeys t) t.rows hkeys
  unfold totalJobsOf
  unfold sumRouteJobs routePerfRows
  rw [List.map_map]
  simpa [Function.comp, rowsOnRoute] using hmain

/-- Witness for the amended C5 at a concrete table. -/
theorem c5_route_jobs_sum_ge_witness : totalJobsOf exC5 ≤ sumRouteJobs exC5 :=
  c5_route_jobs_sum_ge exC5 (by decide)

end Transport
